import Mathlib

/-!
Verification of the dlocal payment connector
(`crates/router/src/connector/dlocal.rs` and
`crates/router/src/connector/dlocal/transformers.rs`).

The Rust code is shallowly embedded: each serde struct becomes a Lean
structure, each enum an inductive, each `TryFrom` impl an explicit
`Except`-returning function, and the generic `build_headers` /
`handle_response` members become functions over the embedded data.
Platform types that live outside the two source files (the `enums` module,
`RouterData`, the crypto and JSON helpers) are modelled from the spec, as
noted on each definition.
-/

set_option maxRecDepth 10000

/-- Gateway payment status (`DlocalPaymentStatus` in transformers.rs, a closed
six-variant serde enum with UPPERCASE wire names and `Pending` as default). -/
inductive DlocalPaymentStatus
  | Authorized
  | Paid
  | Verified
  | Cancelled
  | Pending
  | Rejected
deriving DecidableEq, Repr

/-- Gateway refund status (`RefundStatus` in transformers.rs, a closed
four-variant serde enum with UPPERCASE wire names and `Pending` as default). -/
inductive RefundStatus
  | Success
  | Pending
  | Rejected
  | Cancelled
deriving DecidableEq, Repr

namespace enums

/-- Modelled from the spec: the platform-wide canonical attempt status enum
(`storage::enums::AttemptStatus`, declared outside the two source files).
Only the six values the dlocal mapping produces, plus a couple of further
platform values, are needed here. -/
inductive AttemptStatus
  | Started
  | Authorized
  | Charged
  | AuthenticationPending
  | AuthenticationFailed
  | Voided
  | Pending
  | Failure
deriving DecidableEq, Repr

/-- Modelled from the spec: the platform-wide canonical refund status enum
(`storage::enums::RefundStatus`, declared outside the two source files). -/
inductive RefundStatus
  | Success
  | Pending
  | ManualReview
  | Failure
  | TransactionFailure
deriving DecidableEq, Repr

/-- Modelled from the spec: the currency code enum (`enums::Currency`,
declared outside the two source files; amount is integer minor units).
A representative closed subset; the source's `get_currency` only
distinguishes `BRL` from everything else. -/
inductive Currency
  | BRL
  | USD
  | INR
  | EUR
  | GBP
deriving DecidableEq, Repr

/-- Modelled from the spec: the capture method enum (`enums::CaptureMethod`,
declared outside the two source files). -/
inductive CaptureMethod
  | Automatic
  | Manual
  | ManualMultiple
  | Scheduled
deriving DecidableEq, Repr

end enums

/-- Modelled from the spec: the connector error taxonomy
(`errors::ConnectorError`, declared outside the two source files); exactly
the variants the dlocal connector constructs. -/
inductive ConnectorError
  | FailedToObtainAuthType
  | RequestEncodingFailed
  | MissingRequiredField (field_name : String)
  | MissingConnectorTransactionID
  | NotImplemented (msg : String)
  | ResponseDeserializationFailed
  | ResponseHandlingFailed
  | WebhooksNotImplemented
deriving DecidableEq, Repr

/-- `impl From<DlocalPaymentStatus> for enums::AttemptStatus`
(transformers.rs lines 242-253): the payment status map, an exhaustive
match with no fallback branch. -/
def attemptStatusOfDlocal : DlocalPaymentStatus → enums.AttemptStatus
  | DlocalPaymentStatus.Authorized => enums.AttemptStatus.Authorized
  | DlocalPaymentStatus.Verified => enums.AttemptStatus.Authorized
  | DlocalPaymentStatus.Paid => enums.AttemptStatus.Charged
  | DlocalPaymentStatus.Pending => enums.AttemptStatus.AuthenticationPending
  | DlocalPaymentStatus.Cancelled => enums.AttemptStatus.Voided
  | DlocalPaymentStatus.Rejected => enums.AttemptStatus.AuthenticationFailed

/-- `impl From<RefundStatus> for enums::RefundStatus`
(transformers.rs lines 454-463): the refund status map, an exhaustive
match with no fallback branch. -/
def refundStatusOfDlocal : RefundStatus → enums.RefundStatus
  | RefundStatus.Success => enums.RefundStatus.Success
  | RefundStatus.Pending => enums.RefundStatus.Pending
  | RefundStatus.Rejected => enums.RefundStatus.ManualReview
  | RefundStatus.Cancelled => enums.RefundStatus.Failure

/-- C1: both status-mapping functions are total Lean functions (hence
deterministic and never erroring: they are exhaustive matches with no
fallback), and they map exactly per the spec tables: Authorized→Authorized,
Verified→Authorized, Paid→Charged, Pending→AuthenticationPending,
Cancelled→Voided, Rejected→AuthenticationFailed for payments, and
Success→Success, Pending→Pending, Rejected→ManualReview, Cancelled→Failure
for refunds. -/
theorem status_maps_match_spec_tables :
    attemptStatusOfDlocal DlocalPaymentStatus.Authorized = enums.AttemptStatus.Authorized ∧
    attemptStatusOfDlocal DlocalPaymentStatus.Verified = enums.AttemptStatus.Authorized ∧
    attemptStatusOfDlocal DlocalPaymentStatus.Paid = enums.AttemptStatus.Charged ∧
    attemptStatusOfDlocal DlocalPaymentStatus.Pending = enums.AttemptStatus.AuthenticationPending ∧
    attemptStatusOfDlocal DlocalPaymentStatus.Cancelled = enums.AttemptStatus.Voided ∧
    attemptStatusOfDlocal DlocalPaymentStatus.Rejected = enums.AttemptStatus.AuthenticationFailed ∧
    refundStatusOfDlocal RefundStatus.Success = enums.RefundStatus.Success ∧
    refundStatusOfDlocal RefundStatus.Pending = enums.RefundStatus.Pending ∧
    refundStatusOfDlocal RefundStatus.Rejected = enums.RefundStatus.ManualReview ∧
    refundStatusOfDlocal RefundStatus.Cancelled = enums.RefundStatus.Failure ∧
    (∀ s s' : DlocalPaymentStatus, s = s' → attemptStatusOfDlocal s = attemptStatusOfDlocal s') ∧
    (∀ r r' : RefundStatus, r = r' → refundStatusOfDlocal r = refundStatusOfDlocal r') := by
  refine ⟨rfl, rfl, rfl, rfl, rfl, rfl, rfl, rfl, rfl, rfl, ?_, ?_⟩
  · intro s s' h; rw [h]
  · intro r r' h; rw [h]

/-- C1 witness: the determinism conjuncts instantiated at concrete
statuses. -/
theorem status_maps_match_spec_tables_witness :
    attemptStatusOfDlocal DlocalPaymentStatus.Paid = attemptStatusOfDlocal DlocalPaymentStatus.Paid ∧
    refundStatusOfDlocal RefundStatus.Success = refundStatusOfDlocal RefundStatus.Success :=
  ⟨status_maps_match_spec_tables.2.2.2.2.2.2.2.2.2.2.1
      DlocalPaymentStatus.Paid DlocalPaymentStatus.Paid rfl,
   status_maps_match_spec_tables.2.2.2.2.2.2.2.2.2.2.2
      RefundStatus.Success RefundStatus.Success rfl⟩

/-- Modelled from the spec: the opaque polymorphic credential bundle
(`types::ConnectorAuthType`, declared outside the two source files); the
variant the dlocal resolver recognizes is `SignatureKey` with three secret
strings. -/
inductive ConnectorAuthType
  | HeaderKey (api_key : String)
  | BodyKey (api_key : String) (key1 : String)
  | SignatureKey (api_key : String) (key1 : String) (api_secret : String)
deriving DecidableEq, Repr

/-- `DlocalAuthType` (transformers.rs lines 205-209): the resolved gateway
credentials. -/
structure DlocalAuthType where
  x_login : String
  x_trans_key : String
  secret : String
deriving DecidableEq, Repr

/-- `impl TryFrom<&ConnectorAuthType> for DlocalAuthType`
(transformers.rs lines 211-229): accepts only the `SignatureKey` variant,
otherwise `FailedToObtainAuthType`. -/
def dlocalAuthTypeTryFrom : ConnectorAuthType → Except ConnectorError DlocalAuthType
  | ConnectorAuthType.SignatureKey api_key key1 api_secret =>
      Except.ok { x_login := api_key, x_trans_key := key1, secret := api_secret }
  | _ => Except.error ConnectorError.FailedToObtainAuthType

/-- `get_currency` (transformers.rs lines 144-149): the country string is
derived from the currency, `BRL` giving `"BR"` and everything else `"IN"`. -/
def get_currency : enums.Currency → String
  | enums.Currency.BRL => "BR"
  | _ => "IN"

/-- Modelled from the spec: `Currency`'s `ToString` (derived via strum
outside the two source files), yielding the ISO code name. -/
def currencyToString : enums.Currency → String
  | enums.Currency.BRL => "BRL"
  | enums.Currency.USD => "USD"
  | enums.Currency.INR => "INR"
  | enums.Currency.EUR => "EUR"
  | enums.Currency.GBP => "GBP"

/-- Modelled from the spec: the canonical card payment-method data
(`api::CCard`, declared outside the two source files); the five fields the
dlocal transformer reads. Secret wrappers are modelled as plain strings. -/
structure CCard where
  card_number : String
  card_exp_month : String
  card_exp_year : String
  card_holder_name : String
  card_cvc : String
deriving DecidableEq, Repr

/-- Modelled from the spec: canonical payment-method data as a closed tagged
union (`api::PaymentMethod`, declared outside the two source files). The
dlocal transformer matches `Card` and `Wallet` and sends every other
variant to the catch-all arm; wallet data itself is not read. -/
inductive PaymentMethod
  | Card (card : CCard)
  | Wallet
  | PayLater
  | BankTransfer
deriving DecidableEq, Repr

/-- Modelled from the spec: the optional mandate reference carried on an
Authorize request (`MandateIds`, declared outside the two source files);
the transformer reads only its `mandate_id` string. -/
structure MandateIds where
  mandate_id : String
deriving DecidableEq, Repr

/-- Modelled from the spec: the connector transaction identifier of a sync
request (`types::ResponseId`, declared outside the two source files). -/
inductive ResponseId
  | ConnectorTransactionId (id : String)
  | EncodedData (data : String)
  | NoResponseId
deriving DecidableEq, Repr

/-- Modelled from the spec: `ResponseId::get_connector_transaction_id`
(declared outside the two source files): yields the externally visible
transaction id, failing when it is absent. -/
def ResponseId.getConnectorTransactionId : ResponseId → Except ConnectorError String
  | ResponseId.ConnectorTransactionId id => Except.ok id
  | _ => Except.error ConnectorError.MissingConnectorTransactionID

/-- Modelled from the spec: Authorize flow request data
(`types::PaymentsAuthorizeData`, declared outside the two source files);
the fields the dlocal transformer reads. -/
structure PaymentsAuthorizeData where
  payment_method_data : PaymentMethod
  amount : Int
  email : Option String
  currency : enums.Currency
  capture_method : Option enums.CaptureMethod
  mandate_id : Option MandateIds
deriving DecidableEq, Repr

/-- Modelled from the spec: PSync flow request data
(`types::PaymentsSyncData`, declared outside the two source files). -/
structure PaymentsSyncData where
  connector_transaction_id : ResponseId
deriving DecidableEq, Repr

/-- Modelled from the spec: Void flow request data
(`types::PaymentsCancelData`, declared outside the two source files); its
connector transaction id is a plain, always-present string. -/
structure PaymentsCancelData where
  connector_transaction_id : String
  cancel_reason : Option String
deriving DecidableEq, Repr

/-- Modelled from the spec: Capture flow request data
(`types::PaymentsCaptureData`, declared outside the two source files). -/
structure PaymentsCaptureData where
  amount : Int
  currency : enums.Currency
  connector_transaction_id : String
  amount_to_capture : Option Int
deriving DecidableEq, Repr

/-- Modelled from the spec: refund flow request data (`types::RefundsData`,
declared outside the two source files); used by both RefundExecute and
RefundSync. -/
structure RefundsData where
  refund_id : String
  connector_transaction_id : String
  connector_refund_id : Option String
  currency : enums.Currency
  refund_amount : Int
deriving DecidableEq, Repr

/-- Modelled from the spec: a postal address as far as the connector could
read it (declared outside the two source files); only the country matters
for the billing-country question. -/
structure Address where
  country : Option String
deriving DecidableEq, Repr

/-- Modelled from the spec: the canonical payment address pair
(`PaymentAddress`, declared outside the two source files). -/
structure PaymentAddress where
  billing : Option Address
  shipping : Option Address
deriving DecidableEq, Repr

/-- Modelled from the spec: the canonical error envelope
(`types::ErrorResponse`, declared outside the two source files). -/
structure ErrorResponse where
  status_code : Nat
  code : String
  message : String
  reason : Option String
deriving DecidableEq, Repr

/-- Modelled from the spec: the HTTP method of a redirect or outbound
request (`services::Method`, declared outside the two source files). -/
inductive Method
  | Get
  | Post
deriving DecidableEq, Repr

/-- Modelled from the spec: the redirect descriptor
(`services::RedirectForm`, declared outside the two source files): url,
method, and the query parameters as a form-field mapping. The Rust
`HashMap` is modelled as a key-unique association list. -/
structure RedirectForm where
  url : String
  method : Method
  form_fields : List (String × String)
deriving DecidableEq, Repr

/-- Modelled from the spec: the canonical payments response payload
(`types::PaymentsResponseData`, declared outside the two source files);
the dlocal connector only builds `TransactionResponse`. -/
inductive PaymentsResponseData
  | TransactionResponse (resource_id : ResponseId)
      (redirection_data : Option RedirectForm) (redirect : Bool)
      (mandate_reference : Option String) (connector_metadata : Option String)
deriving DecidableEq, Repr

/-- Modelled from the spec: the canonical refunds response payload
(`types::RefundsResponseData`, declared outside the two source files). -/
structure RefundsResponseData where
  connector_refund_id : String
  refund_status : enums.RefundStatus
deriving DecidableEq, Repr

deriving instance DecidableEq for Except

/-- Modelled from the spec: the per-flow canonical request snapshot
(`types::RouterData<Flow, Req, Res>`, declared outside the two source
files). It carries the request payload, the mutable status/response slots,
and request-scoped metadata; the dlocal code reads `payment_id`,
`return_url`, `connector_auth_type` and `request`, and overwrites `status`
and `response` with struct-update syntax, carrying everything else
forward. The flow marker type is erased; the payload types remain. -/
structure RouterData (Req Res : Type) where
  merchant_id : String
  payment_id : String
  attempt_id : String
  status : enums.AttemptStatus
  return_url : Option String
  address : PaymentAddress
  connector_auth_type : ConnectorAuthType
  description : Option String
  request : Req
  response : Except ErrorResponse Res
deriving DecidableEq

/-- `types::ResponseRouterData` (declared outside the two source files,
built verbatim inside every `handle_response`): the deserialized gateway
response paired with the original request snapshot and the HTTP code. -/
structure ResponseRouterData (R Req Res : Type) where
  response : R
  data : RouterData Req Res
  http_code : Nat
deriving DecidableEq

/-- `Payer` (transformers.rs lines 13-18). -/
structure Payer where
  name : String
  email : String
  document : String
deriving DecidableEq, Repr

/-- `Card` (transformers.rs lines 20-30): the gateway-side card shape; the
`capture` flag is serialized as a string. -/
structure Card where
  holder_name : String
  number : String
  cvv : String
  expiration_month : String
  expiration_year : String
  capture : String
  installments_id : Option String
  installments : Option String
deriving DecidableEq, Repr

/-- `ThreeDSecureReqData` (transformers.rs lines 32-35). -/
structure ThreeDSecureReqData where
  force : Bool
deriving DecidableEq, Repr

/-- `DlocalPaymentsRequest` (transformers.rs lines 37-50): the Authorize
wire body. -/
structure DlocalPaymentsRequest where
  amount : Int
  currency : enums.Currency
  country : Option String
  payment_method_id : String
  payment_method_flow : String
  payer : Payer
  card : Option Card
  order_id : String
  notification_url : String
  three_dsecure : Option ThreeDSecureReqData
  callback_url : Option String
deriving DecidableEq, Repr

/-- `DlocalPaymentsSyncRequest` (transformers.rs lines 151-153). -/
structure DlocalPaymentsSyncRequest where
  authz_id : String
deriving DecidableEq, Repr

/-- `DlocalPaymentsCancelRequest` (transformers.rs lines 168-170). -/
structure DlocalPaymentsCancelRequest where
  cancel_id : String
deriving DecidableEq, Repr

/-- `DlocalPaymentsCaptureRequest` (transformers.rs lines 181-187). -/
structure DlocalPaymentsCaptureRequest where
  authorization_id : String
  amount : Int
  currency : String
  order_id : String
deriving DecidableEq, Repr

/-- `DlocalRefundsSyncRequest` (transformers.rs lines 489-492). -/
structure DlocalRefundsSyncRequest where
  refund_id : String
deriving DecidableEq, Repr

/-- `impl TryFrom<&PaymentsAuthorizeRouterData> for DlocalPaymentsRequest`
(transformers.rs lines 52-142): the email is demanded before the
payment-method dispatch; the Card arm fills the card and payer fields; the
Wallet arm goes through the redirect flow; every other variant is
`NotImplemented`. The hardcoded document string and fallback notification
url are copied verbatim from the source. -/
def dlocalPaymentsRequestTryFrom
    (item : RouterData PaymentsAuthorizeData PaymentsResponseData) :
    Except ConnectorError DlocalPaymentsRequest :=
  match item.request.email with
  | none => Except.error (ConnectorError.MissingRequiredField "email_id")
  | some email =>
    match item.request.payment_method_data with
    | PaymentMethod.Card ccard =>
      let should_capture : Bool :=
        match item.request.capture_method with
        | some enums.CaptureMethod.Automatic => true
        | _ => false
      Except.ok
        { amount := item.request.amount
          country := some (get_currency item.request.currency)
          currency := item.request.currency
          payment_method_id := "CARD"
          payment_method_flow := "DIRECT"
          payer :=
            { name := ccard.card_holder_name
              email := email
              document := "36691251830" }
          card := some
            { holder_name := ccard.card_holder_name
              number := ccard.card_number
              cvv := ccard.card_cvc
              expiration_month := ccard.card_exp_month
              expiration_year := ccard.card_exp_year
              capture := toString should_capture
              installments_id := item.request.mandate_id.map (fun ids => ids.mandate_id)
              installments := item.request.mandate_id.map (fun _ => "1") }
          order_id := item.payment_id
          notification_url :=
            match item.return_url with
            | some val => val
            | none => "http://wwww.sandbox.juspay.in/hackathon/H1005"
          three_dsecure := none
          callback_url := item.return_url }
    | PaymentMethod.Wallet =>
      Except.ok
        { amount := item.request.amount
          country := some (get_currency item.request.currency)
          currency := item.request.currency
          payment_method_id := "MP"
          payment_method_flow := "REDIRECT"
          payer :=
            { name := "dummyEmail@gmail.com"
              email := email
              document := "36691251830" }
          card := none
          order_id := item.payment_id
          notification_url :=
            match item.return_url with
            | some val => val
            | none => "http://wwww.sandbox.juspay.in/hackathon/H1005"
          three_dsecure := none
          callback_url := item.return_url }
    | _ => Except.error (ConnectorError.NotImplemented "Current Payment Method")

/-- `impl TryFrom<&PaymentsSyncRouterData> for DlocalPaymentsSyncRequest`
(transformers.rs lines 155-166): extract the connector transaction id,
re-contexting any failure to `MissingConnectorTransactionID`. -/
def dlocalPaymentsSyncRequestTryFrom
    (item : RouterData PaymentsSyncData PaymentsResponseData) :
    Except ConnectorError DlocalPaymentsSyncRequest :=
  match item.request.connector_transaction_id.getConnectorTransactionId with
  | Except.ok id => Except.ok { authz_id := id }
  | Except.error _ => Except.error ConnectorError.MissingConnectorTransactionID

/-- `impl TryFrom<&PaymentsCancelRouterData> for DlocalPaymentsCancelRequest`
(transformers.rs lines 172-179): copies the always-present connector
transaction id; this transformer cannot fail. -/
def dlocalPaymentsCancelRequestTryFrom
    (item : RouterData PaymentsCancelData PaymentsResponseData) :
    Except ConnectorError DlocalPaymentsCancelRequest :=
  Except.ok { cancel_id := item.request.connector_transaction_id }

/-- `impl TryFrom<&PaymentsCaptureRouterData> for DlocalPaymentsCaptureRequest`
(transformers.rs lines 189-203): the captured amount is
`amount_to_capture` when supplied and the original amount otherwise. -/
def dlocalPaymentsCaptureRequestTryFrom
    (item : RouterData PaymentsCaptureData PaymentsResponseData) :
    Except ConnectorError DlocalPaymentsCaptureRequest :=
  let amount_to_capture :=
    match item.request.amount_to_capture with
    | some val => val
    | none => item.request.amount
  Except.ok
    { authorization_id := item.request.connector_transaction_id
      amount := amount_to_capture
      currency := currencyToString item.request.currency
      order_id := item.payment_id }

/-- `impl TryFrom<&RefundSyncRouterData> for DlocalRefundsSyncRequest`
(transformers.rs lines 494-505): uses the connector refund id when present
and falls back to the internal `refund_id` when it is absent; this
transformer cannot fail. -/
def dlocalRefundsSyncRequestTryFrom
    (item : RouterData RefundsData RefundsResponseData) :
    Except ConnectorError DlocalRefundsSyncRequest :=
  let refund_id :=
    match item.request.connector_refund_id with
    | some val => val
    | none => item.request.refund_id
  Except.ok { refund_id := refund_id }

/-- Split a character list at every occurrence of `sep`; the accumulator
holds the current segment reversed. -/
def splitOnCharAux (sep : Char) : List Char → List Char → List (List Char)
  | [], acc => [acc.reverse]
  | c :: cs, acc =>
    if c = sep then acc.reverse :: splitOnCharAux sep cs []
    else splitOnCharAux sep cs (c :: acc)

/-- Split a character list at every occurrence of `sep`. -/
def splitOnChar (sep : Char) (l : List Char) : List (List Char) :=
  splitOnCharAux sep l []

/-- Split a character list at the first occurrence of `sep`, dropping the
separator; `none` when the separator does not occur. -/
def splitFirstChar (sep : Char) : List Char → Option (List Char × List Char)
  | [] => none
  | c :: cs =>
    if c = sep then some ([], cs)
    else (splitFirstChar sep cs).map (fun p => (c :: p.1, p.2))

/-- Split a character list at the first occurrence of the sequence `pat`,
dropping the pattern; `none` when the pattern does not occur. -/
def splitFirstSeq (pat : List Char) : List Char → Option (List Char × List Char)
  | [] => none
  | c :: cs =>
    if pat.isPrefixOf (c :: cs) then some ([], (c :: cs).drop pat.length)
    else (splitFirstSeq pat cs).map (fun p => (c :: p.1, p.2))

/-- Modelled from the spec: the parsed-URL view the redirect extractor needs
from the external `url` crate (`reqwest::Url`): the scheme, the part up to
the query, and the raw query string (the part between the first `?` and
any fragment). -/
structure ParsedUrl where
  scheme : String
  hostPath : String
  query : Option String
deriving DecidableEq, Repr

/-- Modelled from the spec: `Url::parse` as the redirect extractor uses it
(external `url` crate, outside this repository). An absolute URL is a
nonempty ASCII-alphabetic scheme followed by `://`; the fragment (after
the first `#`) is stripped and the query is everything after the first
`?`. Anything without a scheme separator is malformed (the crate's
relative-URL-without-base error); percent-decoding is not modelled. -/
def urlParse (s : String) : Option ParsedUrl :=
  match splitFirstSeq (':' :: '/' :: '/' :: []) s.toList with
  | none => none
  | some (schemeChars, rest) =>
    if schemeChars = [] then none
    else if schemeChars.all (fun c => c.isAlpha) then
      let noFrag :=
        match splitFirstChar '#' rest with
        | some (before, _) => before
        | none => rest
      match splitFirstChar '?' noFrag with
      | some (path, q) =>
        some { scheme := String.mk schemeChars, hostPath := String.mk path,
               query := some (String.mk q) }
      | none =>
        some { scheme := String.mk schemeChars, hostPath := String.mk noFrag,
               query := none }
    else none

/-- Modelled from the spec: `Url::query_pairs` (external `url` crate):
split the query on `&`, drop empty segments, and split each segment at its
first `=` (a segment without `=` maps to the empty value). -/
def queryPairs (u : ParsedUrl) : List (String × String) :=
  match u.query with
  | none => []
  | some q =>
    (splitOnChar '&' q.toList).filterMap (fun seg =>
      match seg with
      | [] => none
      | _ =>
        match splitFirstChar '=' seg with
        | some (k, v) => some (String.mk k, String.mk v)
        | none => some (String.mk seg, ""))

/-- Modelled from the spec: `HashMap::insert` observed through lookups; the
map is kept as an association list with unique keys, the inserted key
moving to the back. -/
def hashMapInsert (m : List (String × String)) (k v : String) :
    List (String × String) :=
  (m.filter (fun p => p.1 != k)) ++ [(k, v)]

/-- Modelled from the spec: `HashMap::from_iter`, inserting the pairs in
order so that the last occurrence of a key wins. -/
def hashMapFromIter (ps : List (String × String)) : List (String × String) :=
  ps.foldl (fun m p => hashMapInsert m p.1 p.2) []

/-- Modelled from the spec: `HashMap` lookup. -/
def hashMapLookup (m : List (String × String)) (k : String) : Option String :=
  List.lookup k m

/-- The value of the last occurrence of key `k` in a pair list. -/
def lastValue (ps : List (String × String)) (k : String) : Option String :=
  List.lookup k ps.reverse

/-- `ThreeDSecureResData` (transformers.rs lines 255-258). -/
structure ThreeDSecureResData where
  redirect_url : Option String
deriving DecidableEq, Repr

/-- `DlocalPaymentsResponse` (transformers.rs lines 260-265). -/
structure DlocalPaymentsResponse where
  status : DlocalPaymentStatus
  id : String
  three_dsecure : Option ThreeDSecureResData
deriving DecidableEq, Repr

/-- `RefundResponse` (transformers.rs lines 465-469). -/
structure RefundResponse where
  id : String
  status : RefundStatus
deriving DecidableEq, Repr

/-- The redirect extractor: the `three_ds_data` computation inside
`impl TryFrom<ResponseRouterData<F, DlocalPaymentsResponse, T,
PaymentsResponseData>> for RouterData<F, T, PaymentsResponseData>`
(transformers.rs lines 275-296) — parse the optional redirect url, failing
with `ResponseHandlingFailed` on a malformed url, and collect its query
pairs into the form-field map; no url means no redirect, not an error. -/
def redirectData (tds : Option ThreeDSecureResData) :
    Except ConnectorError (Option RedirectForm) :=
  match tds with
  | some val =>
    match val.redirect_url with
    | some redirect_url =>
      match urlParse redirect_url with
      | none => Except.error ConnectorError.ResponseHandlingFailed
      | some u =>
        Except.ok (some
          { url := redirect_url
            method := Method.Get
            form_fields := hashMapFromIter (queryPairs u) })
    | none => Except.ok none
  | none => Except.ok none

/-- `impl TryFrom<ResponseRouterData<F, DlocalPaymentsResponse, T,
PaymentsResponseData>> for RouterData<F, T, PaymentsResponseData>`
(transformers.rs lines 267-311): the redirect extraction followed by the
status/response overlay over the original snapshot (`..item.data`). -/
def paymentsResponseTryFrom {Req : Type}
    (item : ResponseRouterData DlocalPaymentsResponse Req PaymentsResponseData) :
    Except ConnectorError (RouterData Req PaymentsResponseData) :=
  match redirectData item.response.three_dsecure with
  | Except.error e => Except.error e
  | Except.ok three_ds_data =>
    Except.ok
      { item.data with
        status := attemptStatusOfDlocal item.response.status
        response := Except.ok
          (PaymentsResponseData.TransactionResponse
            (ResponseId.ConnectorTransactionId item.response.id)
            three_ds_data three_ds_data.isSome none none) }

/-- `impl TryFrom<RefundsResponseRouterData<Execute, RefundResponse>> for
RefundsRouterData<Execute>` (transformers.rs lines 471-487): overlay of
the response slot over the original snapshot; cannot fail. -/
def refundExecuteResponseTryFrom
    (item : ResponseRouterData RefundResponse RefundsData RefundsResponseData) :
    Except ConnectorError (RouterData RefundsData RefundsResponseData) :=
  Except.ok
    { item.data with
      response := Except.ok
        { connector_refund_id := item.response.id
          refund_status := refundStatusOfDlocal item.response.status } }

/-- `impl TryFrom<RefundsResponseRouterData<RSync, RefundResponse>> for
RefundsRouterData<RSync>` (transformers.rs lines 506-522): identical
overlay for the refund-sync direction; cannot fail. -/
def refundRSyncResponseTryFrom
    (item : ResponseRouterData RefundResponse RefundsData RefundsResponseData) :
    Except ConnectorError (RouterData RefundsData RefundsResponseData) :=
  Except.ok
    { item.data with
      response := Except.ok
        { connector_refund_id := item.response.id
          refund_status := refundStatusOfDlocal item.response.status } }

namespace Sha256

/-- Reduce modulo the 32-bit word size. -/
def w32 (n : Nat) : Nat := n % 4294967296

/-- Right-rotate a 32-bit word by `n` bits (for `0 < n < 32` and inputs
below `2 ^ 32` this is the exact bit rotation). -/
def rotr (n x : Nat) : Nat := (x % 2 ^ n) * 2 ^ (32 - n) + x / 2 ^ n

/-- Logical right shift. -/
def shr (n x : Nat) : Nat := x / 2 ^ n

/-- Bitwise complement on 32-bit words. -/
def compl32 (x : Nat) : Nat := 4294967295 - w32 x

/-- The SHA-256 choice function. -/
def ch (x y z : Nat) : Nat := (x &&& y) ^^^ (compl32 x &&& z)

/-- The SHA-256 majority function. -/
def maj (x y z : Nat) : Nat := (x &&& y) ^^^ (x &&& z) ^^^ (y &&& z)

/-- The SHA-256 big sigma-0 function. -/
def bsig0 (x : Nat) : Nat := rotr 2 x ^^^ rotr 13 x ^^^ rotr 22 x

/-- The SHA-256 big sigma-1 function. -/
def bsig1 (x : Nat) : Nat := rotr 6 x ^^^ rotr 11 x ^^^ rotr 25 x

/-- The SHA-256 small sigma-0 function. -/
def ssig0 (x : Nat) : Nat := rotr 7 x ^^^ rotr 18 x ^^^ shr 3 x

/-- The SHA-256 small sigma-1 function. -/
def ssig1 (x : Nat) : Nat := rotr 17 x ^^^ rotr 19 x ^^^ shr 10 x

/-- The 64 SHA-256 round constants. -/
def K : List Nat :=
  [1116352408, 1899447441, 3049323471, 3921009573, 961987163,
   1508970993, 2453635748, 2870763221, 3624381080, 310598401,
   607225278, 1426881987, 1925078388, 2162078206, 2614888103,
   3248222580, 3835390401, 4022224774, 264347078, 604807628,
   770255983, 1249150122, 1555081692, 1996064986, 2554220882,
   2821834349, 2952996808, 3210313671, 3336571891, 3584528711,
   113926993, 338241895, 666307205, 773529912, 1294757372,
   1396182291, 1695183700, 1986661051, 2177026350, 2456956037,
   2730485921, 2820302411, 3259730800, 3345764771, 3516065817,
   3600352804, 4094571909, 275423344, 430227734, 506948616,
   659060556, 883997877, 958139571, 1322822218, 1537002063,
   1747873779, 1955562222, 2024104815, 2227730452, 2361852424,
   2428436474, 2756734187, 3204031479, 3329325298]

/-- The eight SHA-256 initial hash words. -/
def H0 : List Nat :=
  [1779033703, 3144134277, 1013904242, 2773480762,
   1359893119, 2600822924, 528734635, 1541459225]

/-- Chunk a list into pieces of `k` elements; the fuel equals the list
length, which is always enough. -/
def chunkAux (k : Nat) : Nat → List Nat → List (List Nat)
  | 0, _ => []
  | _, [] => []
  | fuel + 1, l => l.take k :: chunkAux k fuel (l.drop k)

/-- Chunk a list into pieces of `k` elements. -/
def chunk (k : Nat) (l : List Nat) : List (List Nat) := chunkAux k l.length l

/-- Assemble four big-endian bytes to a 32-bit word. -/
def word32 : List Nat → Nat
  | [a, b, c, d] => ((a * 256 + b) * 256 + c) * 256 + d
  | _ => 0

/-- Decompose a 32-bit word into four big-endian bytes. -/
def wordBytes (n : Nat) : List Nat :=
  [n / 2 ^ 24 % 256, n / 2 ^ 16 % 256, n / 2 ^ 8 % 256, n % 256]

/-- Pad a byte message per SHA-256: append `0x80`, zeros up to 56 modulo
64, then the bit length as eight big-endian bytes. -/
def padMessage (msg : List Nat) : List Nat :=
  let len := msg.length
  let z := (120 - (len + 1) % 64) % 64
  let bitLen := len * 8
  msg ++ [128] ++ List.replicate z 0 ++
    (List.range 8).map (fun i => bitLen / 2 ^ (8 * (7 - i)) % 256)

/-- Extend the sixteen block words to the 64-entry message schedule. -/
def extendSchedule (w : Array Nat) : Array Nat :=
  (List.range 48).foldl
    (fun w _ =>
      let t := w.size
      let v := w32 (ssig1 (w.getD (t - 2) 0) + w.getD (t - 7) 0 +
        ssig0 (w.getD (t - 15) 0) + w.getD (t - 16) 0)
      w.push v)
    w

/-- One SHA-256 compression step over a 64-byte block. -/
def compress (h : List Nat) (block : List Nat) : List Nat :=
  let w := extendSchedule (Array.mk ((chunk 4 block).map word32))
  let st0 := (h.getD 0 0, h.getD 1 0, h.getD 2 0, h.getD 3 0,
              h.getD 4 0, h.getD 5 0, h.getD 6 0, h.getD 7 0)
  let stN := (List.range 64).foldl
    (fun st i =>
      let (a, b, c, d, e, f, g, hh) := st
      let t1 := w32 (hh + bsig1 e + ch e f g + K.getD i 0 + w.getD i 0)
      let t2 := w32 (bsig0 a + maj a b c)
      (w32 (t1 + t2), a, b, c, w32 (d + t1), e, f, g))
    st0
  let (a, b, c, d, e, f, g, hh) := stN
  [w32 (h.getD 0 0 + a), w32 (h.getD 1 0 + b), w32 (h.getD 2 0 + c),
   w32 (h.getD 3 0 + d), w32 (h.getD 4 0 + e), w32 (h.getD 5 0 + f),
   w32 (h.getD 6 0 + g), w32 (h.getD 7 0 + hh)]

/-- SHA-256 of a byte list, as 32 digest bytes. -/
def sha256 (msg : List Nat) : List Nat :=
  (((chunk 64 (padMessage msg)).foldl compress H0).map wordBytes).flatten

end Sha256

/-- Modelled from the spec: `crypto::HmacSha256::sign_message`
(`common_utils::crypto`, this repository but outside the two source
files): HMAC with SHA-256, RFC 2104 — the key is hashed when longer than
the 64-byte block, zero-padded, xored with the inner and outer pads. -/
def hmacSha256 (key msg : List Nat) : List Nat :=
  let k0 := if 64 < key.length then Sha256.sha256 key else key
  let kPad := k0 ++ List.replicate (64 - k0.length) 0
  let ipadKey := kPad.map (fun b => b ^^^ 54)
  let opadKey := kPad.map (fun b => b ^^^ 92)
  Sha256.sha256 (opadKey ++ Sha256.sha256 (ipadKey ++ msg))

/-- One hex digit, lowercase. -/
def hexChar (n : Nat) : Char :=
  if n < 10 then Char.ofNat (48 + n) else Char.ofNat (87 + n % 16)

/-- Modelled from the spec: `hex::encode` (external crate): lowercase hex
of a byte list. -/
def hexEncode (bytes : List Nat) : String :=
  String.mk (bytes.foldr (fun b acc => hexChar (b / 16 % 16) :: hexChar (b % 16) :: acc) [])

/-- The UTF-8 bytes of a string, as naturals. -/
def strBytes (s : String) : List Nat :=
  s.toUTF8.toList.map (fun b => b.toNat)

/-- The Authorization header value (dlocal.rs lines 51-63): the scheme tag
followed by the hex HMAC-SHA-256, keyed by the signing secret, of
`x_login ++ date ++ body`. -/
def signHeaderValue (auth : DlocalAuthType) (date body : String) : String :=
  "V2-HMAC-SHA256, Signature: " ++
    hexEncode (hmacSha256 (strBytes auth.secret)
      (strBytes (auth.x_login ++ date ++ body)))

/-- `ConnectorCommonExt::build_headers` (dlocal.rs lines 36-76). The body is
the flow's serialized request body (`None` for bodiless flows, read as the
empty string) and `date` is the fresh `yyyymmddThhmmss.mmmz` timestamp
supplied by the clock; both enter as arguments because they come from
collaborators outside this function. -/
def buildHeaders (bodyOpt : Option String) (date : String)
    (authType : ConnectorAuthType) :
    Except ConnectorError (List (String × String)) :=
  let dlocal_req :=
    match bodyOpt with
    | some val => val
    | none => ""
  match dlocalAuthTypeTryFrom authType with
  | Except.error e => Except.error e
  | Except.ok auth =>
    Except.ok
      [("Authorization", signHeaderValue auth date dlocal_req),
       ("X-Login", auth.x_login),
       ("X-Trans-Key", auth.x_trans_key),
       ("X-Version", "2.1"),
       ("X-Date", date),
       ("Content-Type", "application/json")]

/-- Modelled from the spec: a JSON value, the shape `handle_response`
deserializes raw bodies into. -/
inductive Json
  | null
  | bool (b : Bool)
  | num (n : Int)
  | str (s : String)
  | arr (items : List Json)
  | obj (fields : List (String × Json))

/-- Field lookup on a JSON object; `none` for non-objects and missing
fields. -/
def Json.getField : Json → String → Option Json
  | Json.obj fields, k => List.lookup k fields
  | _, _ => none

/-- Modelled from the spec: serde's derived string decoder. -/
def decodeString : Json → Option String
  | Json.str s => some s
  | _ => none

/-- Decode an optional field serde-style: a missing field or an explicit
null is `none`; anything else must decode. -/
def decodeOptField {α : Type} (j : Json) (k : String) (d : Json → Option α) :
    Option (Option α) :=
  match j.getField k with
  | none => some none
  | some Json.null => some none
  | some v => (d v).map some

/-- Modelled from the spec: serde's derived decoder for
`DlocalPaymentStatus` with its UPPERCASE wire names. -/
def decodeDlocalPaymentStatus : Json → Option DlocalPaymentStatus
  | Json.str "AUTHORIZED" => some DlocalPaymentStatus.Authorized
  | Json.str "PAID" => some DlocalPaymentStatus.Paid
  | Json.str "VERIFIED" => some DlocalPaymentStatus.Verified
  | Json.str "CANCELLED" => some DlocalPaymentStatus.Cancelled
  | Json.str "PENDING" => some DlocalPaymentStatus.Pending
  | Json.str "REJECTED" => some DlocalPaymentStatus.Rejected
  | _ => none

/-- Modelled from the spec: serde's derived decoder for the gateway
`RefundStatus` with its UPPERCASE wire names. -/
def decodeRefundStatus : Json → Option RefundStatus
  | Json.str "SUCCESS" => some RefundStatus.Success
  | Json.str "PENDING" => some RefundStatus.Pending
  | Json.str "REJECTED" => some RefundStatus.Rejected
  | Json.str "CANCELLED" => some RefundStatus.Cancelled
  | _ => none

/-- Modelled from the spec: serde's derived decoder for
`ThreeDSecureResData` (an optional `redirect_url` string). -/
def decodeThreeDSecureResData (j : Json) : Option ThreeDSecureResData :=
  match j with
  | Json.obj _ =>
    match decodeOptField j "redirect_url" decodeString with
    | some u => some { redirect_url := u }
    | none => none
  | _ => none

/-- Modelled from the spec: serde's derived decoder for
`DlocalPaymentsResponse`: required `status` and `id`, optional
`three_dsecure`; unknown fields are ignored. -/
def decodeDlocalPaymentsResponse (j : Json) : Option DlocalPaymentsResponse :=
  match j.getField "status" with
  | none => none
  | some sv =>
    match decodeDlocalPaymentStatus sv with
    | none => none
    | some status =>
      match j.getField "id" with
      | none => none
      | some iv =>
        match decodeString iv with
        | none => none
        | some id =>
          match decodeOptField j "three_dsecure" decodeThreeDSecureResData with
          | none => none
          | some tds => some { status := status, id := id, three_dsecure := tds }

/-- Modelled from the spec: serde's derived decoder for `RefundResponse`:
required `id` and `status`. -/
def decodeRefundResponse (j : Json) : Option RefundResponse :=
  match j.getField "id" with
  | none => none
  | some iv =>
    match decodeString iv with
    | none => none
    | some id =>
      match j.getField "status" with
      | none => none
      | some sv =>
        match decodeRefundStatus sv with
        | none => none
        | some status => some { id := id, status := status }

/-- Modelled from the spec: the transport-layer raw response
(`types::Response`, declared outside the two source files): the HTTP
status code and the body, already read as JSON text. -/
structure HttpResponse where
  status_code : Nat
  body : Json

/-- The common payments `handle_response` (dlocal.rs: Authorize lines
419-436, PSync lines 257-273, Capture lines 327-344, Void lines 171-188,
all textually identical): parse a `DlocalPaymentsResponse`, re-contexting
parse failure to `ResponseDeserializationFailed`, then run the response
transformer, re-contexting its failure to `ResponseHandlingFailed`. -/
def paymentsHandleResponse {Req : Type}
    (data : RouterData Req PaymentsResponseData) (res : HttpResponse) :
    Except ConnectorError (RouterData Req PaymentsResponseData) :=
  match decodeDlocalPaymentsResponse res.body with
  | none => Except.error ConnectorError.ResponseDeserializationFailed
  | some response =>
    match paymentsResponseTryFrom
        { response := response, data := data, http_code := res.status_code } with
    | Except.error _ => Except.error ConnectorError.ResponseHandlingFailed
    | Except.ok out => Except.ok out

/-- `ConnectorIntegration<Authorize>::handle_response` (dlocal.rs lines
419-436). -/
def authorizeHandleResponse
    (data : RouterData PaymentsAuthorizeData PaymentsResponseData)
    (res : HttpResponse) :
    Except ConnectorError (RouterData PaymentsAuthorizeData PaymentsResponseData) :=
  paymentsHandleResponse data res

/-- `ConnectorIntegration<PSync>::handle_response` (dlocal.rs lines
257-273); it too parses `DlocalPaymentsResponse`. -/
def psyncHandleResponse
    (data : RouterData PaymentsSyncData PaymentsResponseData)
    (res : HttpResponse) :
    Except ConnectorError (RouterData PaymentsSyncData PaymentsResponseData) :=
  paymentsHandleResponse data res

/-- `ConnectorIntegration<Capture>::handle_response` (dlocal.rs lines
327-344). -/
def captureHandleResponse
    (data : RouterData PaymentsCaptureData PaymentsResponseData)
    (res : HttpResponse) :
    Except ConnectorError (RouterData PaymentsCaptureData PaymentsResponseData) :=
  paymentsHandleResponse data res

/-- `ConnectorIntegration<Void>::handle_response` (dlocal.rs lines
171-188). -/
def voidHandleResponse
    (data : RouterData PaymentsCancelData PaymentsResponseData)
    (res : HttpResponse) :
    Except ConnectorError (RouterData PaymentsCancelData PaymentsResponseData) :=
  paymentsHandleResponse data res

/-- `ConnectorIntegration<Execute>::handle_response` (dlocal.rs lines
496-513): parses a `RefundResponse`, but re-contexts a parse failure to
`RequestEncodingFailed` (not `ResponseDeserializationFailed` as the other
five flows do), then runs the refund response transformer with downstream
failures re-contexted to `ResponseHandlingFailed`. -/
def refundExecuteHandleResponse
    (data : RouterData RefundsData RefundsResponseData) (res : HttpResponse) :
    Except ConnectorError (RouterData RefundsData RefundsResponseData) :=
  match decodeRefundResponse res.body with
  | none => Except.error ConnectorError.RequestEncodingFailed
  | some response =>
    match refundExecuteResponseTryFrom
        { response := response, data := data, http_code := res.status_code } with
    | Except.error _ => Except.error ConnectorError.ResponseHandlingFailed
    | Except.ok out => Except.ok out

/-- `ConnectorIntegration<RSync>::handle_response` (dlocal.rs lines
565-582): parses a `RefundResponse` with parse failure re-contexted to
`ResponseDeserializationFailed`, downstream failure to
`ResponseHandlingFailed`. -/
def refundRSyncHandleResponse
    (data : RouterData RefundsData RefundsResponseData) (res : HttpResponse) :
    Except ConnectorError (RouterData RefundsData RefundsResponseData) :=
  match decodeRefundResponse res.body with
  | none => Except.error ConnectorError.ResponseDeserializationFailed
  | some response =>
    match refundRSyncResponseTryFrom
        { response := response, data := data, http_code := res.status_code } with
    | Except.error _ => Except.error ConnectorError.ResponseHandlingFailed
    | Except.ok out => Except.ok out

/-- C4: the captured amount is `amount_to_capture` when supplied and the
original authorized amount otherwise; the other fields come from the
snapshot and the construction never fails. -/
theorem capture_amount_policy
    (item : RouterData PaymentsCaptureData PaymentsResponseData) :
    (item.request.amount_to_capture = none →
      dlocalPaymentsCaptureRequestTryFrom item = Except.ok
        { authorization_id := item.request.connector_transaction_id
          amount := item.request.amount
          currency := currencyToString item.request.currency
          order_id := item.payment_id }) ∧
    (∀ v, item.request.amount_to_capture = some v →
      dlocalPaymentsCaptureRequestTryFrom item = Except.ok
        { authorization_id := item.request.connector_transaction_id
          amount := v
          currency := currencyToString item.request.currency
          order_id := item.payment_id }) := by
  constructor
  · intro h
    unfold dlocalPaymentsCaptureRequestTryFrom
    rw [h]
  · intro v h
    unfold dlocalPaymentsCaptureRequestTryFrom
    rw [h]

/-- A concrete capture snapshot with no partial amount. -/
def captureItemFull : RouterData PaymentsCaptureData PaymentsResponseData :=
  { merchant_id := "m1"
    payment_id := "pay_1"
    attempt_id := "att_1"
    status := enums.AttemptStatus.Authorized
    return_url := none
    address := { billing := none, shipping := none }
    connector_auth_type := ConnectorAuthType.SignatureKey "login_1" "tkey_1" "sec_1"
    description := none
    request :=
      { amount := 1000
        currency := enums.Currency.USD
        connector_transaction_id := "txn_77"
        amount_to_capture := none }
    response := Except.error { status_code := 0, code := "", message := "", reason := none } }

/-- A concrete capture snapshot with a partial amount. -/
def captureItemPartial : RouterData PaymentsCaptureData PaymentsResponseData :=
  { captureItemFull with
    request := { captureItemFull.request with amount_to_capture := some 250 } }

/-- C4 witness: the two capture policies at concrete snapshots. -/
theorem capture_amount_policy_witness :
    dlocalPaymentsCaptureRequestTryFrom captureItemFull = Except.ok
      { authorization_id := "txn_77", amount := 1000, currency := "USD", order_id := "pay_1" } ∧
    dlocalPaymentsCaptureRequestTryFrom captureItemPartial = Except.ok
      { authorization_id := "txn_77", amount := 250, currency := "USD", order_id := "pay_1" } :=
  ⟨(capture_amount_policy captureItemFull).1 rfl,
   (capture_amount_policy captureItemPartial).2 250 rfl⟩

/-- C5: when the email is absent, constructing the Authorize gateway
request fails with `MissingRequiredField "email_id"` (a typed error — the
Lean embedding is a total function, so no panic and no default email can
occur). -/
theorem authorize_missing_email
    (item : RouterData PaymentsAuthorizeData PaymentsResponseData)
    (h : item.request.email = none) :
    dlocalPaymentsRequestTryFrom item =
      Except.error (ConnectorError.MissingRequiredField "email_id") := by
  unfold dlocalPaymentsRequestTryFrom
  rw [h]

/-- A concrete card. -/
def sampleCard : CCard :=
  { card_number := "4111111111111111"
    card_exp_month := "10"
    card_exp_year := "25"
    card_holder_name := "John Doe"
    card_cvc := "123" }

/-- A concrete Authorize snapshot with a card but no email. -/
def authItemNoEmail : RouterData PaymentsAuthorizeData PaymentsResponseData :=
  { merchant_id := "m1"
    payment_id := "pay_1"
    attempt_id := "att_1"
    status := enums.AttemptStatus.Started
    return_url := some "https://merchant.example/return"
    address := { billing := some { country := some "US" }, shipping := none }
    connector_auth_type := ConnectorAuthType.SignatureKey "login_1" "tkey_1" "sec_1"
    description := none
    request :=
      { payment_method_data := PaymentMethod.Card sampleCard
        amount := 1000
        email := none
        currency := enums.Currency.USD
        capture_method := some enums.CaptureMethod.Automatic
        mandate_id := none }
    response := Except.error { status_code := 0, code := "", message := "", reason := none } }

/-- C5 witness: the missing-email failure at a concrete snapshot. -/
theorem authorize_missing_email_witness :
    dlocalPaymentsRequestTryFrom authItemNoEmail =
      Except.error (ConnectorError.MissingRequiredField "email_id") :=
  authorize_missing_email authItemNoEmail rfl

/-- C10: the email check precedes the payment-method dispatch — with the
email absent, every payment-method variant (Card, Wallet, and the
catch-all variants that would otherwise be `NotImplemented`) produces
`MissingRequiredField "email_id"`. -/
theorem authorize_missing_email_before_dispatch
    (item : RouterData PaymentsAuthorizeData PaymentsResponseData)
    (h : item.request.email = none) :
    (∀ c, dlocalPaymentsRequestTryFrom
        { item with request := { item.request with payment_method_data := PaymentMethod.Card c } } =
      Except.error (ConnectorError.MissingRequiredField "email_id")) ∧
    dlocalPaymentsRequestTryFrom
        { item with request := { item.request with payment_method_data := PaymentMethod.Wallet } } =
      Except.error (ConnectorError.MissingRequiredField "email_id") ∧
    dlocalPaymentsRequestTryFrom
        { item with request := { item.request with payment_method_data := PaymentMethod.PayLater } } =
      Except.error (ConnectorError.MissingRequiredField "email_id") ∧
    dlocalPaymentsRequestTryFrom
        { item with request := { item.request with payment_method_data := PaymentMethod.BankTransfer } } =
      Except.error (ConnectorError.MissingRequiredField "email_id") := by
  refine ⟨fun c => ?_, ?_, ?_, ?_⟩ <;>
    · unfold dlocalPaymentsRequestTryFrom
      simp only []
      rw [show ({ item.request with payment_method_data := _ } : PaymentsAuthorizeData).email
            = item.request.email from rfl, h]

/-- C10 witness: with the email absent, the Wallet variant too fails with
the missing-email error rather than `NotImplemented`. -/
theorem authorize_missing_email_before_dispatch_witness :
    dlocalPaymentsRequestTryFrom
        { authItemNoEmail with
          request := { authItemNoEmail.request with payment_method_data := PaymentMethod.Wallet } } =
      Except.error (ConnectorError.MissingRequiredField "email_id") :=
  (authorize_missing_email_before_dispatch authItemNoEmail rfl).2.1

/-- C6 (amended): PSync extracts the connector transaction id and fails
with `MissingConnectorTransactionID` exactly when the identifier is
absent; Void copies its always-present connector transaction id and never
fails; RefundSync uses the connector refund id when present but, when it
is absent, falls back to the internal `refund_id` instead of failing. -/
theorem sync_void_refundsync_identifier_extraction :
    (∀ (item : RouterData PaymentsSyncData PaymentsResponseData),
      (∀ id, item.request.connector_transaction_id = ResponseId.ConnectorTransactionId id →
        dlocalPaymentsSyncRequestTryFrom item = Except.ok { authz_id := id }) ∧
      (item.request.connector_transaction_id = ResponseId.NoResponseId →
        dlocalPaymentsSyncRequestTryFrom item =
          Except.error ConnectorError.MissingConnectorTransactionID) ∧
      (∀ d, item.request.connector_transaction_id = ResponseId.EncodedData d →
        dlocalPaymentsSyncRequestTryFrom item =
          Except.error ConnectorError.MissingConnectorTransactionID)) ∧
    (∀ (item : RouterData PaymentsCancelData PaymentsResponseData),
      dlocalPaymentsCancelRequestTryFrom item =
        Except.ok { cancel_id := item.request.connector_transaction_id }) ∧
    (∀ (item : RouterData RefundsData RefundsResponseData),
      (∀ rid, item.request.connector_refund_id = some rid →
        dlocalRefundsSyncRequestTryFrom item = Except.ok { refund_id := rid }) ∧
      (item.request.connector_refund_id = none →
        dlocalRefundsSyncRequestTryFrom item =
          Except.ok { refund_id := item.request.refund_id })) := by
  refine ⟨fun item => ⟨fun id h => ?_, fun h => ?_, fun d h => ?_⟩,
          fun item => rfl,
          fun item => ⟨fun rid h => ?_, fun h => ?_⟩⟩ <;>
    first
      | (unfold dlocalPaymentsSyncRequestTryFrom
         rw [h]
         rfl)
      | (unfold dlocalRefundsSyncRequestTryFrom
         rw [h])

/-- A concrete PSync snapshot carrying a connector transaction id. -/
def psyncItem : RouterData PaymentsSyncData PaymentsResponseData :=
  { merchant_id := "m1"
    payment_id := "pay_1"
    attempt_id := "att_1"
    status := enums.AttemptStatus.AuthenticationPending
    return_url := none
    address := { billing := none, shipping := none }
    connector_auth_type := ConnectorAuthType.SignatureKey "login_1" "tkey_1" "sec_1"
    description := none
    request := { connector_transaction_id := ResponseId.ConnectorTransactionId "txn_9" }
    response := Except.error { status_code := 0, code := "", message := "", reason := none } }

/-- A concrete PSync snapshot with no connector transaction id. -/
def psyncItemNoId : RouterData PaymentsSyncData PaymentsResponseData :=
  { psyncItem with request := { connector_transaction_id := ResponseId.NoResponseId } }

/-- A concrete RefundSync snapshot whose connector refund id is absent. -/
def rsyncItemNoRefundId : RouterData RefundsData RefundsResponseData :=
  { merchant_id := "m1"
    payment_id := "pay_1"
    attempt_id := "att_1"
    status := enums.AttemptStatus.Charged
    return_url := none
    address := { billing := none, shipping := none }
    connector_auth_type := ConnectorAuthType.SignatureKey "login_1" "tkey_1" "sec_1"
    description := none
    request :=
      { refund_id := "ref_internal"
        connector_transaction_id := "txn_9"
        connector_refund_id := none
        currency := enums.Currency.USD
        refund_amount := 100 }
    response := Except.error { status_code := 0, code := "", message := "", reason := none } }

/-- C6 counterexample: a RefundSync request whose connector refund id is
absent does not fail with `MissingConnectorTransactionID` — it succeeds,
substituting the internal `refund_id`. -/
theorem refundsync_missing_id_counterexample :
    rsyncItemNoRefundId.request.connector_refund_id = none ∧
    dlocalRefundsSyncRequestTryFrom rsyncItemNoRefundId =
      Except.ok { refund_id := "ref_internal" } ∧
    dlocalRefundsSyncRequestTryFrom rsyncItemNoRefundId ≠
      Except.error ConnectorError.MissingConnectorTransactionID :=
  ⟨rfl, rfl, by decide⟩

/-- C6 witness: the amended behaviour at concrete snapshots — PSync
success and failure, and the RefundSync fallback. -/
theorem sync_void_refundsync_identifier_extraction_witness :
    dlocalPaymentsSyncRequestTryFrom psyncItem = Except.ok { authz_id := "txn_9" } ∧
    dlocalPaymentsSyncRequestTryFrom psyncItemNoId =
      Except.error ConnectorError.MissingConnectorTransactionID ∧
    dlocalRefundsSyncRequestTryFrom rsyncItemNoRefundId =
      Except.ok { refund_id := "ref_internal" } :=
  ⟨(sync_void_refundsync_identifier_extraction.1 psyncItem).1 "txn_9" rfl,
   (sync_void_refundsync_identifier_extraction.1 psyncItemNoId).2.1 rfl,
   (sync_void_refundsync_identifier_extraction.2.2 rsyncItemNoRefundId).2 rfl⟩

/-- C9 (amended): for an Authorize request with Card data and an email, the
gateway request's country is resolved from the currency (`"BR"` for BRL,
otherwise `"IN"` — not from the billing address), the card fields carry the
holder name, number, cvv and expiry, the capture flag is `"true"` exactly
when the capture method is Automatic, and the installment fields are the
mandate id and `"1"` when a mandate reference is present and absent
otherwise. -/
theorem authorize_card_request_shape
    (item : RouterData PaymentsAuthorizeData PaymentsResponseData)
    (ccard : CCard) (e : String)
    (hpm : item.request.payment_method_data = PaymentMethod.Card ccard)
    (he : item.request.email = some e) :
    dlocalPaymentsRequestTryFrom item = Except.ok
      { amount := item.request.amount
        currency := item.request.currency
        country := some (if item.request.currency = enums.Currency.BRL then "BR" else "IN")
        payment_method_id := "CARD"
        payment_method_flow := "DIRECT"
        payer := { name := ccard.card_holder_name, email := e, document := "36691251830" }
        card := some
          { holder_name := ccard.card_holder_name
            number := ccard.card_number
            cvv := ccard.card_cvc
            expiration_month := ccard.card_exp_month
            expiration_year := ccard.card_exp_year
            capture := if item.request.capture_method = some enums.CaptureMethod.Automatic
              then "true" else "false"
            installments_id :=
              match item.request.mandate_id with
              | some m => some m.mandate_id
              | none => none
            installments := if (item.request.mandate_id).isSome then some "1" else none }
        order_id := item.payment_id
        notification_url := (item.return_url).getD "http://wwww.sandbox.juspay.in/hackathon/H1005"
        three_dsecure := none
        callback_url := item.return_url } := by
  unfold dlocalPaymentsRequestTryFrom
  rw [he, hpm]
  cases hcur : item.request.currency <;>
    cases hman : item.request.mandate_id <;>
      cases hurl : item.return_url <;>
        rcases hcap : item.request.capture_method with _ | cm <;>
          first
            | rfl
            | (cases cm <;> rfl)

/-- A concrete Authorize snapshot: Card data, email present, a US billing
address, USD currency. -/
def authItemCard : RouterData PaymentsAuthorizeData PaymentsResponseData :=
  { authItemNoEmail with
    request := { authItemNoEmail.request with email := some "john@example.com" } }

/-- C9 counterexample: the constructed request's country is derived from
the currency, not resolved from the billing address — the billing country
is `"US"` while the request carries `"IN"` (USD is not BRL). -/
theorem authorize_country_counterexample :
    authItemCard.address.billing = some { country := some "US" } ∧
    (dlocalPaymentsRequestTryFrom authItemCard).map (fun r => r.country) =
      Except.ok (some "IN") ∧
    (some "IN" : Option String) ≠ some "US" :=
  ⟨rfl, rfl, by decide⟩

/-- C9 witness: the amended card-request shape at the concrete snapshot. -/
theorem authorize_card_request_shape_witness :
    dlocalPaymentsRequestTryFrom authItemCard = Except.ok
      { amount := 1000
        currency := enums.Currency.USD
        country := some "IN"
        payment_method_id := "CARD"
        payment_method_flow := "DIRECT"
        payer := { name := "John Doe", email := "john@example.com", document := "36691251830" }
        card := some
          { holder_name := "John Doe"
            number := "4111111111111111"
            cvv := "123"
            expiration_month := "10"
            expiration_year := "25"
            capture := "true"
            installments_id := none
            installments := none }
        order_id := "pay_1"
        notification_url := "https://merchant.example/return"
        three_dsecure := none
        callback_url := some "https://merchant.example/return" } :=
  authorize_card_request_shape authItemCard sampleCard "john@example.com" rfl rfl

/-- When the redirect extraction succeeds, the payments response transformer
is exactly the status/response overlay over the snapshot. -/
theorem paymentsResponseTryFrom_ok {Req : Type}
    (item : ResponseRouterData DlocalPaymentsResponse Req PaymentsResponseData)
    (t : Option RedirectForm)
    (h : redirectData item.response.three_dsecure = Except.ok t) :
    paymentsResponseTryFrom item = Except.ok
      { item.data with
        status := attemptStatusOfDlocal item.response.status
        response := Except.ok
          (PaymentsResponseData.TransactionResponse
            (ResponseId.ConnectorTransactionId item.response.id)
            t t.isSome none none) } := by
  unfold paymentsResponseTryFrom
  rw [h]

/-- When the redirect extraction fails, the payments response transformer
propagates the error. -/
theorem paymentsResponseTryFrom_err {Req : Type}
    (item : ResponseRouterData DlocalPaymentsResponse Req PaymentsResponseData)
    (e : ConnectorError)
    (h : redirectData item.response.three_dsecure = Except.error e) :
    paymentsResponseTryFrom item = Except.error e := by
  unfold paymentsResponseTryFrom
  rw [h]

/-- C3: every successful response-direction transformation is an overlay —
the result agrees with the original request snapshot on every field other
than `status` and `response`; for the refund transformers even `status` is
carried forward untouched. -/
theorem response_overlay_frame :
    (∀ (Req : Type) (item : ResponseRouterData DlocalPaymentsResponse Req PaymentsResponseData)
       (r : RouterData Req PaymentsResponseData),
      paymentsResponseTryFrom item = Except.ok r →
        r.merchant_id = item.data.merchant_id ∧
        r.payment_id = item.data.payment_id ∧
        r.attempt_id = item.data.attempt_id ∧
        r.return_url = item.data.return_url ∧
        r.address = item.data.address ∧
        r.connector_auth_type = item.data.connector_auth_type ∧
        r.description = item.data.description ∧
        r.request = item.data.request) ∧
    (∀ (item : ResponseRouterData RefundResponse RefundsData RefundsResponseData)
       (r : RouterData RefundsData RefundsResponseData),
      refundExecuteResponseTryFrom item = Except.ok r →
        r.merchant_id = item.data.merchant_id ∧
        r.payment_id = item.data.payment_id ∧
        r.attempt_id = item.data.attempt_id ∧
        r.status = item.data.status ∧
        r.return_url = item.data.return_url ∧
        r.address = item.data.address ∧
        r.connector_auth_type = item.data.connector_auth_type ∧
        r.description = item.data.description ∧
        r.request = item.data.request) ∧
    (∀ (item : ResponseRouterData RefundResponse RefundsData RefundsResponseData)
       (r : RouterData RefundsData RefundsResponseData),
      refundRSyncResponseTryFrom item = Except.ok r →
        r.merchant_id = item.data.merchant_id ∧
        r.payment_id = item.data.payment_id ∧
        r.attempt_id = item.data.attempt_id ∧
        r.status = item.data.status ∧
        r.return_url = item.data.return_url ∧
        r.address = item.data.address ∧
        r.connector_auth_type = item.data.connector_auth_type ∧
        r.description = item.data.description ∧
        r.request = item.data.request) := by
  refine ⟨?_, ?_, ?_⟩
  · intro Req item r h
    cases hr : redirectData item.response.three_dsecure with
    | error e =>
      rw [paymentsResponseTryFrom_err item e hr] at h
      cases h
    | ok t =>
      rw [paymentsResponseTryFrom_ok item t hr] at h
      injection h with h'
      subst h'
      exact ⟨rfl, rfl, rfl, rfl, rfl, rfl, rfl, rfl⟩
  · intro item r h
    unfold refundExecuteResponseTryFrom at h
    injection h with h'
    subst h'
    exact ⟨rfl, rfl, rfl, rfl, rfl, rfl, rfl, rfl, rfl⟩
  · intro item r h
    unfold refundRSyncResponseTryFrom at h
    injection h with h'
    subst h'
    exact ⟨rfl, rfl, rfl, rfl, rfl, rfl, rfl, rfl, rfl⟩

/-- A concrete payments response item with no redirect. -/
def plainPaymentsItem :
    ResponseRouterData DlocalPaymentsResponse PaymentsSyncData PaymentsResponseData :=
  { response := { status := DlocalPaymentStatus.Paid, id := "pay_d2", three_dsecure := none }
    data := psyncItem
    http_code := 200 }

/-- The result of transforming `plainPaymentsItem`: the snapshot with only
status and response overridden. -/
def plainPaymentsResult : RouterData PaymentsSyncData PaymentsResponseData :=
  { psyncItem with
    status := enums.AttemptStatus.Charged
    response := Except.ok
      (PaymentsResponseData.TransactionResponse
        (ResponseId.ConnectorTransactionId "pay_d2") none false none none) }

/-- A concrete refund response item. -/
def refundRespItem :
    ResponseRouterData RefundResponse RefundsData RefundsResponseData :=
  { response := { id := "rf_9", status := RefundStatus.Success }
    data := rsyncItemNoRefundId
    http_code := 200 }

/-- The result of transforming `refundRespItem`: only the response slot is
overridden. -/
def refundRespResult : RouterData RefundsData RefundsResponseData :=
  { rsyncItemNoRefundId with
    response := Except.ok
      { connector_refund_id := "rf_9", refund_status := enums.RefundStatus.Success } }

/-- C3 witness: the frame conditions at concrete payment and refund
responses. -/
theorem response_overlay_frame_witness :
    (plainPaymentsResult.merchant_id = plainPaymentsItem.data.merchant_id ∧
     plainPaymentsResult.payment_id = plainPaymentsItem.data.payment_id ∧
     plainPaymentsResult.attempt_id = plainPaymentsItem.data.attempt_id ∧
     plainPaymentsResult.return_url = plainPaymentsItem.data.return_url ∧
     plainPaymentsResult.address = plainPaymentsItem.data.address ∧
     plainPaymentsResult.connector_auth_type = plainPaymentsItem.data.connector_auth_type ∧
     plainPaymentsResult.description = plainPaymentsItem.data.description ∧
     plainPaymentsResult.request = plainPaymentsItem.data.request) ∧
    (refundRespResult.merchant_id = refundRespItem.data.merchant_id ∧
     refundRespResult.payment_id = refundRespItem.data.payment_id ∧
     refundRespResult.attempt_id = refundRespItem.data.attempt_id ∧
     refundRespResult.status = refundRespItem.data.status ∧
     refundRespResult.return_url = refundRespItem.data.return_url ∧
     refundRespResult.address = refundRespItem.data.address ∧
     refundRespResult.connector_auth_type = refundRespItem.data.connector_auth_type ∧
     refundRespResult.description = refundRespItem.data.description ∧
     refundRespResult.request = refundRespItem.data.request) :=
  ⟨response_overlay_frame.1 PaymentsSyncData plainPaymentsItem plainPaymentsResult rfl,
   response_overlay_frame.2.1 refundRespItem refundRespResult rfl⟩

/-- First-some choice on options, used to factor lookups over appended
lists. -/
def optOr (a b : Option String) : Option String :=
  match a with
  | some v => some v
  | none => b

/-- Lookup distributes over list append, preferring the left list. -/
theorem lookup_append (k : String) (l1 l2 : List (String × String)) :
    List.lookup k (l1 ++ l2) = optOr (List.lookup k l1) (List.lookup k l2) := by
  induction l1 with
  | nil => simp [List.lookup, optOr]
  | cons p t ih =>
    obtain ⟨a, b⟩ := p
    by_cases hk : k = a
    · subst hk
      simp [List.lookup, optOr]
    · simp only [List.cons_append, List.lookup]
      rw [show (k == a) = false from beq_eq_false_iff_ne.mpr hk]
      exact ih

/-- Filtering out a key makes its lookup fail. -/
theorem lookup_filter_self (k : String) (m : List (String × String)) :
    List.lookup k (m.filter (fun p => p.1 != k)) = none := by
  induction m with
  | nil => rfl
  | cons p t ih =>
    obtain ⟨a, b⟩ := p
    by_cases hk : a = k
    · subst hk
      rw [List.filter_cons_of_neg]
      · exact ih
      · simp
    · rw [List.filter_cons_of_pos]
      · simp only [List.lookup]
        rw [show (k == a) = false from beq_eq_false_iff_ne.mpr fun h => hk h.symm]
        exact ih
      · simpa using hk

/-- Filtering out a different key leaves a lookup unchanged. -/
theorem lookup_filter_ne (k a : String) (hk : k ≠ a)
    (m : List (String × String)) :
    List.lookup k (m.filter (fun p => p.1 != a)) = List.lookup k m := by
  induction m with
  | nil => rfl
  | cons p t ih =>
    obtain ⟨x, b⟩ := p
    by_cases hx : x = a
    · subst hx
      rw [List.filter_cons_of_neg]
      · rw [ih]
        simp only [List.lookup]
        rw [show (k == x) = false from beq_eq_false_iff_ne.mpr hk]
      · simp
    · rw [List.filter_cons_of_pos]
      · simp only [List.lookup]
        cases k == x
        · exact ih
        · rfl
      · simpa using hx

/-- Lookup after a hash-map insert: the inserted key wins, all others are
unchanged. -/
theorem lookup_hashMapInsert (k a b : String) (m : List (String × String)) :
    List.lookup k (hashMapInsert m a b) =
      if k = a then some b else List.lookup k m := by
  unfold hashMapInsert
  rw [lookup_append]
  by_cases hk : k = a
  · subst hk
    rw [lookup_filter_self]
    simp [optOr, List.lookup]
  · rw [lookup_filter_ne k a hk, if_neg hk]
    cases List.lookup k m with
    | some v => rfl
    | none =>
      simp only [optOr, List.lookup]
      rw [show (k == a) = false from beq_eq_false_iff_ne.mpr hk]

/-- Folding hash-map inserts over a pair list realizes last-occurrence-wins
lookup. -/
theorem lookup_foldl_insert (ps : List (String × String)) :
    ∀ (m : List (String × String)) (k : String),
      List.lookup k (ps.foldl (fun m p => hashMapInsert m p.1 p.2) m) =
        optOr (List.lookup k ps.reverse) (List.lookup k m) := by
  induction ps with
  | nil => intro m k; simp [optOr, List.lookup]
  | cons p t ih =>
    intro m k
    obtain ⟨a, b⟩ := p
    rw [List.foldl_cons, ih, List.reverse_cons, lookup_append, lookup_hashMapInsert]
    cases List.lookup k t.reverse with
    | some v => rfl
    | none =>
      by_cases hk : k = a
      · subst hk
        simp [optOr, List.lookup]
      · simp only [optOr, List.lookup]
        rw [show (k == a) = false from beq_eq_false_iff_ne.mpr hk, if_neg hk]

/-- The form-field map built from the query pairs maps each key to the value
of its last occurrence. -/
theorem lookup_hashMapFromIter (ps : List (String × String)) (k : String) :
    hashMapLookup (hashMapFromIter ps) k = lastValue ps k := by
  unfold hashMapLookup hashMapFromIter lastValue
  rw [lookup_foldl_insert]
  cases List.lookup k ps.reverse with
  | some v => rfl
  | none => rfl

/-- C8: a payment response carrying a redirect url is parsed as a URL —
failing with `ResponseHandlingFailed` when malformed — and otherwise
yields a redirect descriptor whose url is that string, whose method is
GET, and whose form fields map each query-parameter name to the value of
its last occurrence; a response with no redirect url succeeds with no
redirect rather than erroring. -/
theorem redirect_extraction_spec :
    (∀ (Req : Type)
       (item : ResponseRouterData DlocalPaymentsResponse Req PaymentsResponseData)
       (td : ThreeDSecureResData) (u : String),
      item.response.three_dsecure = some td → td.redirect_url = some u →
      (urlParse u = none →
        paymentsResponseTryFrom item =
          Except.error ConnectorError.ResponseHandlingFailed) ∧
      (∀ p, urlParse u = some p →
        paymentsResponseTryFrom item = Except.ok
          { item.data with
            status := attemptStatusOfDlocal item.response.status
            response := Except.ok
              (PaymentsResponseData.TransactionResponse
                (ResponseId.ConnectorTransactionId item.response.id)
                (some { url := u, method := Method.Get,
                        form_fields := hashMapFromIter (queryPairs p) })
                true none none) } ∧
        ∀ k, hashMapLookup (hashMapFromIter (queryPairs p)) k =
          lastValue (queryPairs p) k)) ∧
    (∀ (Req : Type)
       (item : ResponseRouterData DlocalPaymentsResponse Req PaymentsResponseData),
      (item.response.three_dsecure = none ∨
       ∃ td, item.response.three_dsecure = some td ∧ td.redirect_url = none) →
      paymentsResponseTryFrom item = Except.ok
        { item.data with
          status := attemptStatusOfDlocal item.response.status
          response := Except.ok
            (PaymentsResponseData.TransactionResponse
              (ResponseId.ConnectorTransactionId item.response.id)
              none false none none) }) := by
  constructor
  · intro Req item td u htd hu
    constructor
    · intro hp
      have h : redirectData item.response.three_dsecure =
          Except.error ConnectorError.ResponseHandlingFailed := by
        rw [htd]
        simp [redirectData, hu, hp]
      exact paymentsResponseTryFrom_err item _ h
    · intro p hp
      have h : redirectData item.response.three_dsecure =
          Except.ok (some
            { url := u
              method := Method.Get
              form_fields := hashMapFromIter (queryPairs p) }) := by
        rw [htd]
        simp [redirectData, hu, hp]
      exact ⟨paymentsResponseTryFrom_ok item _ h,
             fun k => lookup_hashMapFromIter (queryPairs p) k⟩
  · intro Req item h
    rcases h with hnone | ⟨td, htd, hu⟩
    · have h : redirectData item.response.three_dsecure = Except.ok none := by
        rw [hnone]
        rfl
      exact paymentsResponseTryFrom_ok item none h
    · have h : redirectData item.response.three_dsecure = Except.ok none := by
        rw [htd]
        simp [redirectData, hu]
      exact paymentsResponseTryFrom_ok item none h

/-- A concrete payments response carrying the spec's example challenge
url. -/
def redirectItem :
    ResponseRouterData DlocalPaymentsResponse PaymentsSyncData PaymentsResponseData :=
  { response :=
      { status := DlocalPaymentStatus.Pending
        id := "pay_d3"
        three_dsecure := some
          { redirect_url := some "https://pay.example/challenge?token=abc&step=2" } }
    data := psyncItem
    http_code := 200 }

/-- The parsed view of the example challenge url. -/
def challengeUrl : ParsedUrl :=
  { scheme := "https"
    hostPath := "pay.example/challenge"
    query := some "token=abc&step=2" }

/-- C8 witness: the spec's example — the challenge url yields a GET
redirect descriptor with form fields token=abc and step=2, the form-field
lookup finds them, and a response without a redirect url yields no
redirect. -/
theorem redirect_extraction_spec_witness :
    (paymentsResponseTryFrom redirectItem = Except.ok
      { psyncItem with
        status := enums.AttemptStatus.AuthenticationPending
        response := Except.ok
          (PaymentsResponseData.TransactionResponse
            (ResponseId.ConnectorTransactionId "pay_d3")
            (some { url := "https://pay.example/challenge?token=abc&step=2"
                    method := Method.Get
                    form_fields := [("token", "abc"), ("step", "2")] })
            true none none) }) ∧
    hashMapLookup [("token", "abc"), ("step", "2")] "token" = some "abc" ∧
    hashMapLookup [("token", "abc"), ("step", "2")] "step" = some "2" ∧
    (paymentsResponseTryFrom plainPaymentsItem = Except.ok
      { psyncItem with
        status := enums.AttemptStatus.Charged
        response := Except.ok
          (PaymentsResponseData.TransactionResponse
            (ResponseId.ConnectorTransactionId "pay_d2")
            none false none none) }) :=
  ⟨((redirect_extraction_spec.1 PaymentsSyncData redirectItem
      { redirect_url := some "https://pay.example/challenge?token=abc&step=2" }
      "https://pay.example/challenge?token=abc&step=2" rfl rfl).2
      challengeUrl rfl).1,
   ((redirect_extraction_spec.1 PaymentsSyncData redirectItem
      { redirect_url := some "https://pay.example/challenge?token=abc&step=2" }
      "https://pay.example/challenge?token=abc&step=2" rfl rfl).2
      challengeUrl rfl).2 "token",
   ((redirect_extraction_spec.1 PaymentsSyncData redirectItem
      { redirect_url := some "https://pay.example/challenge?token=abc&step=2" }
      "https://pay.example/challenge?token=abc&step=2" rfl rfl).2
      challengeUrl rfl).2 "step",
   redirect_extraction_spec.2 PaymentsSyncData plainPaymentsItem (Or.inl rfl)⟩

/-- String append acts as list append on the character data. -/
theorem string_data_append (s t : String) : (s ++ t).data = s.data ++ t.data := by
  cases s
  cases t
  rfl

/-- Strings with equal character data are equal. -/
theorem string_data_injective {s t : String} (h : s.data = t.data) : s = t := by
  cases s
  cases t
  exact congrArg String.mk h

/-- C2 (amended): for every SignatureKey credential bundle, timestamp and
optional serialized body, `build_headers` emits exactly the six dlocal
headers, the Authorization value being the scheme tag followed by the hex
HMAC-SHA-256, keyed by the signing secret, of the canonical string
`login_id ++ timestamp ++ body` (empty body when absent); the same triple
always yields the same signature; the canonical string is injective in
each of login, timestamp and body separately; and the signature does not
depend on the transaction key at all — which is why changing the
credentials need not change the signature. -/
theorem build_headers_signature_spec :
    (∀ (login tkey secret date : String) (bodyOpt : Option String),
      buildHeaders bodyOpt date (ConnectorAuthType.SignatureKey login tkey secret) =
        Except.ok
          [("Authorization", "V2-HMAC-SHA256, Signature: " ++
              hexEncode (hmacSha256 (strBytes secret)
                (strBytes (login ++ date ++ bodyOpt.getD "")))),
           ("X-Login", login),
           ("X-Trans-Key", tkey),
           ("X-Version", "2.1"),
           ("X-Date", date),
           ("Content-Type", "application/json")]) ∧
    (∀ (auth : DlocalAuthType) (date body : String),
      signHeaderValue auth date body = signHeaderValue auth date body) ∧
    (∀ (l t b t' : String), l ++ t ++ b = l ++ t' ++ b → t = t') ∧
    (∀ (l l' t b : String), l ++ t ++ b = l' ++ t ++ b → l = l') ∧
    (∀ (l t b b' : String), l ++ t ++ b = l ++ t ++ b' → b = b') ∧
    (∀ (login t1 t2 secret date body : String),
      signHeaderValue { x_login := login, x_trans_key := t1, secret := secret } date body =
        signHeaderValue { x_login := login, x_trans_key := t2, secret := secret } date body) := by
  refine ⟨?_, fun auth date body => rfl, ?_, ?_, ?_, fun login t1 t2 secret date body => rfl⟩
  · intro login tkey secret date bodyOpt
    cases bodyOpt <;> rfl
  · intro l t b t' h
    have hd : (l ++ t ++ b).data = (l ++ t' ++ b).data := by rw [h]
    simp only [string_data_append] at hd
    exact string_data_injective (List.append_cancel_left (List.append_cancel_right hd))
  · intro l l' t b h
    have hd : (l ++ t ++ b).data = (l' ++ t ++ b).data := by rw [h]
    simp only [string_data_append] at hd
    exact string_data_injective (List.append_cancel_right (List.append_cancel_right hd))
  · intro l t b b' h
    have hd : (l ++ t ++ b).data = (l ++ t ++ b').data := by rw [h]
    simp only [string_data_append] at hd
    exact string_data_injective (List.append_cancel_left hd)

/-- C2 counterexample: two different credential bundles — same login and
signing secret, different transaction keys — produce the identical
Authorization signature for the same timestamp and body, so changing one
of (credentials, timestamp, body) need not change the signature. -/
theorem build_headers_transkey_counterexample :
    (ConnectorAuthType.SignatureKey "login_1" "tkey_A" "sec_1" ≠
      ConnectorAuthType.SignatureKey "login_1" "tkey_B" "sec_1") ∧
    ((buildHeaders (some "body") "20230101T000000.000Z"
        (ConnectorAuthType.SignatureKey "login_1" "tkey_A" "sec_1")).map
        (fun hs => hs.head?)) =
      ((buildHeaders (some "body") "20230101T000000.000Z"
        (ConnectorAuthType.SignatureKey "login_1" "tkey_B" "sec_1")).map
        (fun hs => hs.head?)) := by
  constructor
  · decide
  · rfl

/-- C2 witness: the amended statement at concrete credentials, timestamp
and body — the emitted headers, and middle-cancellation of the canonical
string at a concrete instance. -/
theorem build_headers_signature_spec_witness :
    buildHeaders (some "reqbody") "20230101T000000.000Z"
        (ConnectorAuthType.SignatureKey "lg" "tk" "sc") =
      Except.ok
        [("Authorization", "V2-HMAC-SHA256, Signature: " ++
            hexEncode (hmacSha256 (strBytes "sc")
              (strBytes ("lg" ++ "20230101T000000.000Z" ++ (some "reqbody").getD "")))),
         ("X-Login", "lg"),
         ("X-Trans-Key", "tk"),
         ("X-Version", "2.1"),
         ("X-Date", "20230101T000000.000Z"),
         ("Content-Type", "application/json")] ∧
    ("ts1" : String) = "ts1" :=
  ⟨build_headers_signature_spec.1 "lg" "tk" "sc" "20230101T000000.000Z" (some "reqbody"),
   build_headers_signature_spec.2.2.1 "lg" "ts1" "body" "ts1" rfl⟩

/-- C7 (amended): for the Authorize, PSync, Capture, Void and RefundSync
flows, `handle_response` fails with `ResponseDeserializationFailed`
whenever the raw body does not deserialize into the flow's gateway
response type, and for every flow a downstream mapping error after
successful deserialization surfaces as `ResponseHandlingFailed`; the
RefundExecute flow alone maps a deserialization failure to
`RequestEncodingFailed` instead. -/
theorem handle_response_error_mapping :
    (∀ (data : RouterData PaymentsAuthorizeData PaymentsResponseData) (res : HttpResponse),
      decodeDlocalPaymentsResponse res.body = none →
        authorizeHandleResponse data res =
          Except.error ConnectorError.ResponseDeserializationFailed) ∧
    (∀ (data : RouterData PaymentsSyncData PaymentsResponseData) (res : HttpResponse),
      decodeDlocalPaymentsResponse res.body = none →
        psyncHandleResponse data res =
          Except.error ConnectorError.ResponseDeserializationFailed) ∧
    (∀ (data : RouterData PaymentsCaptureData PaymentsResponseData) (res : HttpResponse),
      decodeDlocalPaymentsResponse res.body = none →
        captureHandleResponse data res =
          Except.error ConnectorError.ResponseDeserializationFailed) ∧
    (∀ (data : RouterData PaymentsCancelData PaymentsResponseData) (res : HttpResponse),
      decodeDlocalPaymentsResponse res.body = none →
        voidHandleResponse data res =
          Except.error ConnectorError.ResponseDeserializationFailed) ∧
    (∀ (data : RouterData RefundsData RefundsResponseData) (res : HttpResponse),
      decodeRefundResponse res.body = none →
        refundRSyncHandleResponse data res =
          Except.error ConnectorError.ResponseDeserializationFailed) ∧
    (∀ (data : RouterData RefundsData RefundsResponseData) (res : HttpResponse),
      decodeRefundResponse res.body = none →
        refundExecuteHandleResponse data res =
          Except.error ConnectorError.RequestEncodingFailed) ∧
    (∀ (Req : Type) (data : RouterData Req PaymentsResponseData) (res : HttpResponse)
       (r : DlocalPaymentsResponse) (e : ConnectorError),
      decodeDlocalPaymentsResponse res.body = some r →
      paymentsResponseTryFrom
          { response := r, data := data, http_code := res.status_code } =
        Except.error e →
      paymentsHandleResponse data res =
        Except.error ConnectorError.ResponseHandlingFailed) := by
  refine ⟨?_, ?_, ?_, ?_, ?_, ?_, ?_⟩
  · intro data res h
    unfold authorizeHandleResponse paymentsHandleResponse
    rw [h]
  · intro data res h
    unfold psyncHandleResponse paymentsHandleResponse
    rw [h]
  · intro data res h
    unfold captureHandleResponse paymentsHandleResponse
    rw [h]
  · intro data res h
    unfold voidHandleResponse paymentsHandleResponse
    rw [h]
  · intro data res h
    unfold refundRSyncHandleResponse
    rw [h]
  · intro data res h
    unfold refundExecuteHandleResponse
    rw [h]
  · intro Req data res r e hdec htf
    unfold paymentsHandleResponse
    simp [hdec, htf]

/-- C7 counterexample: a malformed body handed to the RefundExecute
`handle_response` yields `RequestEncodingFailed`, not the
`ResponseDeserializationFailed` the claim requires of every flow. -/
theorem refund_execute_parse_error_counterexample :
    decodeRefundResponse (Json.str "garbage") = none ∧
    refundExecuteHandleResponse rsyncItemNoRefundId
        { status_code := 200, body := Json.str "garbage" } =
      Except.error ConnectorError.RequestEncodingFailed ∧
    (Except.error ConnectorError.RequestEncodingFailed :
        Except ConnectorError (RouterData RefundsData RefundsResponseData)) ≠
      Except.error ConnectorError.ResponseDeserializationFailed :=
  ⟨rfl, rfl, by decide⟩

/-- A deserializable payments body whose redirect url is malformed, to
exercise the downstream-failure path. -/
def badRedirectBody : Json :=
  Json.obj
    [("status", Json.str "PENDING"),
     ("id", Json.str "pay_d4"),
     ("three_dsecure", Json.obj [("redirect_url", Json.str "notaurl")])]

/-- C7 witness: the amended mapping at concrete inputs — a garbage body on
Authorize and RefundSync, the RefundExecute deviation, and a well-formed
body whose redirect url fails downstream. -/
theorem handle_response_error_mapping_witness :
    authorizeHandleResponse authItemCard { status_code := 500, body := Json.str "oops" } =
      Except.error ConnectorError.ResponseDeserializationFailed ∧
    refundRSyncHandleResponse rsyncItemNoRefundId
        { status_code := 500, body := Json.str "oops" } =
      Except.error ConnectorError.ResponseDeserializationFailed ∧
    refundExecuteHandleResponse rsyncItemNoRefundId
        { status_code := 500, body := Json.str "oops" } =
      Except.error ConnectorError.RequestEncodingFailed ∧
    psyncHandleResponse psyncItem { status_code := 200, body := badRedirectBody } =
      Except.error ConnectorError.ResponseHandlingFailed :=
  ⟨handle_response_error_mapping.1 authItemCard
      { status_code := 500, body := Json.str "oops" } rfl,
   handle_response_error_mapping.2.2.2.2.1 rsyncItemNoRefundId
      { status_code := 500, body := Json.str "oops" } rfl,
   handle_response_error_mapping.2.2.2.2.2.1 rsyncItemNoRefundId
      { status_code := 500, body := Json.str "oops" } rfl,
   handle_response_error_mapping.2.2.2.2.2.2 PaymentsSyncData psyncItem
      { status_code := 200, body := badRedirectBody }
      { status := DlocalPaymentStatus.Pending, id := "pay_d4",
        three_dsecure := some { redirect_url := some "notaurl" } }
      ConnectorError.ResponseHandlingFailed rfl rfl⟩
